import Mathlib

/-!
Verification of the point2point pixel-measurement tool
(src/pixel_measure.py) against its natural-language specification.

The numeric conversion pipeline of `PixelMeasureTool.calculate_measurements`
is embedded over the rationals: the Python float literals 0.75, 2.54 and
25.4 are exact decimal constants, the formulas are pure algebra, and a
Python float division by zero raises ZeroDivisionError, which is modelled
by returning `none`.  External effects (subprocess invocations, the
filesystem, tkinter events) are modelled by passing the observable
behaviour of the environment as explicit data.
-/

namespace PixelMeasure

/-- The full set of unit values produced by one run of
`calculate_measurements` (the 16 dictionary keys of the source; `inch`
stands for the key "in" and `pct` for the key "%"). -/
structure Measurements where
  px : ℚ
  pt : ℚ
  pc : ℚ
  inch : ℚ
  cm : ℚ
  mm : ℚ
  Q : ℚ
  em : ℚ
  rem : ℚ
  ch : ℚ
  ex : ℚ
  vw : ℚ
  vh : ℚ
  pct : ℚ
  vmin : ℚ
  vmax : ℚ
deriving DecidableEq

/-- Embedding of the conversion block of
`PixelMeasureTool.calculate_measurements` (src/pixel_measure.py lines
610-632).  Each field is the exact formula the source computes.  In
Python every one of the divisions raises ZeroDivisionError when its
divisor is zero, which happens exactly when one of dpi,
base_font_size, screen_width, screen_height is zero (note
`base_font_size * 0.5 = 0` iff `base_font_size = 0`, and
`min/max screen_width screen_height = 0` for some unit iff one of the
two dimensions is zero); that exceptional outcome is `none`. -/
def convert (distance_px dpi base_font_size screen_width screen_height : ℚ) :
    Option Measurements :=
  if dpi = 0 ∨ base_font_size = 0 ∨ screen_width = 0 ∨ screen_height = 0 then
    none
  else
    some
      { px := distance_px
        pt := distance_px * 0.75
        pc := distance_px * 0.75 / 12
        inch := distance_px / dpi
        cm := distance_px / dpi * 2.54
        mm := distance_px / dpi * 25.4
        Q := distance_px / dpi * 25.4 * 4
        em := distance_px / base_font_size
        rem := distance_px / base_font_size
        ch := distance_px / (base_font_size * 0.5)
        ex := distance_px / (base_font_size * 0.5)
        vw := distance_px / screen_width * 100
        vh := distance_px / screen_height * 100
        pct := distance_px / screen_width * 100
        vmin := distance_px / (min screen_width screen_height) * 100
        vmax := distance_px / (max screen_width screen_height) * 100 }

/-- The 15-row conversion table of the specification, transcribed from
the words of the spec (each row in terms of the earlier rows, exactly as
the table writes it).  Used to compare the source conversion against the
spec by refinement. -/
def convertSpec (distance_px dpi baseFontSizePx viewportWidth viewportHeight : ℚ) :
    Measurements :=
  { px := distance_px
    pt := distance_px * 0.75
    pc := distance_px * 0.75 / 12
    inch := distance_px / dpi
    cm := distance_px / dpi * 2.54
    mm := distance_px / dpi * 25.4
    Q := distance_px / dpi * 25.4 * 4
    em := distance_px / baseFontSizePx
    rem := distance_px / baseFontSizePx
    ch := distance_px / (baseFontSizePx * 0.5)
    ex := distance_px / (baseFontSizePx * 0.5)
    vw := distance_px / viewportWidth * 100
    vh := distance_px / viewportHeight * 100
    pct := distance_px / viewportWidth * 100
    vmin := distance_px / (min viewportWidth viewportHeight) * 100
    vmax := distance_px / (max viewportWidth viewportHeight) * 100 }

/-- Rounding to n decimal places, as the format strings `:.2f` and
`:.4f` of the source display a value (none of the checked values is a
tie, so nearest-rounding agrees with the float formatting). -/
def roundTo (n : ℕ) (q : ℚ) : ℚ := (round (q * 10 ^ n) : ℚ) / 10 ^ n

/-- Embedding of the settings-parsing block of `calculate_measurements`
(lines 594-599): `float(...)` applied to each of the two entry strings,
where `none` models a string that raises ValueError.  The except clause
assigns both defaults, so a failure of either parse yields (96, 16). -/
def resolveSettings (dpiInput fontInput : Option ℚ) : ℚ × ℚ :=
  match dpiInput, fontInput with
  | some d, some f => (d, f)
  | _, _ => (96, 16)

/-- The measurement pipeline from parsed settings to the conversion
result: `calculate_measurements` with the already-computed pixel
distance as input (the source computes it from the two click points by
`math.sqrt`). -/
def calcMeasurements (dpiInput fontInput : Option ℚ)
    (distance_px screen_width screen_height : ℚ) : Option Measurements :=
  let s := resolveSettings dpiInput fontInput
  convert distance_px s.1 s.2 screen_width screen_height

/-- A detected monitor record, the dictionary shape every detection
branch of `get_monitors` produces (src/pixel_measure.py lines 19-96).
All numeric fields come from `int(...)` on regex digit groups or from
tkinter screen queries, so they are Python ints, modelled by ℤ. -/
structure Monitor where
  name : String
  width : ℤ
  height : ℤ
  x : ℤ
  y : ℤ
deriving DecidableEq

/-- The ordering used by `monitors.sort(key=lambda m: (m['x'], m['y']))`:
lexicographic comparison of the pair (x, y). -/
def monLe (a b : Monitor) : Prop :=
  a.x < b.x ∨ (a.x = b.x ∧ a.y ≤ b.y)

instance : DecidableRel monLe := fun a b =>
  inferInstanceAs (Decidable (a.x < b.x ∨ (a.x = b.x ∧ a.y ≤ b.y)))

instance : IsTotal Monitor monLe :=
  ⟨by intro a b; unfold monLe; omega⟩

instance : IsTrans Monitor monLe :=
  ⟨by intro a b c; unfold monLe; omega⟩

/-- The stable sort the source applies to a parsed monitor list
(insertion sort produces the same output as any stable sort for the
same key). -/
def sortMons (l : List Monitor) : List Monitor :=
  List.insertionSort monLe l

/-- Embedding of `get_monitors`.  The observable behaviour of each
external source is passed as data: `xrandrMons` and `wlrMons` are the
lists parsed from each command output, `none` meaning the command
raised (SubprocessError or FileNotFoundError) or exited nonzero, and
`some []` meaning it ran but no monitor line matched; `tkScreen` is the
tkinter screen size, `none` meaning that fallback also raised.  The
source sorts and returns the first nonempty parsed list, then falls
back to a single Primary Display record, then to the synthetic
Default. -/
def get_monitors (xrandrMons wlrMons : Option (List Monitor))
    (tkScreen : Option (ℤ × ℤ)) : List Monitor :=
  let m1 := xrandrMons.getD []
  if m1 ≠ [] then sortMons m1
  else
    let m2 := wlrMons.getD []
    if m2 ≠ [] then sortMons m2
    else
      match tkScreen with
      | some s =>
        [{ name := "Primary Display", width := s.1, height := s.2, x := 0, y := 0 }]
      | none =>
        [{ name := "Default", width := 1920, height := 1080, x := 0, y := 0 }]

/-- Clamping of one crop coordinate in `ScreenshotMeasure.load_image`:
`max(0, min(v, bound))`. -/
def clampI (v bound : ℤ) : ℤ := max 0 (min v bound)

/-- The crop rectangle computed by `load_image` (lines 264-279) from a
selected monitor and the size of the captured image. -/
def cropRegion (mon : Monitor) (full_w full_h : ℤ) : ℤ × ℤ × ℤ × ℤ :=
  (clampI mon.x full_w, clampI mon.y full_h,
   clampI (mon.x + mon.width) full_w, clampI (mon.y + mon.height) full_h)

/-- Observable behaviour of one candidate screenshot tool invocation in
`ScreenshotMeasure.take_screenshot` (lines 290-336): whether
`subprocess.run` raised (SubprocessError, including timeout, or
FileNotFoundError), the exit code of the process when it ran, and
whether a file is present at the output path afterwards.  The source
never reads `result`, so the exit code field is dead data. -/
structure ToolRun where
  raises : Bool
  exitCode : ℤ
  createsFile : Bool
deriving DecidableEq

/-- The tool-trying loop of `take_screenshot`, threading the on-disk
state of the output file: for each tool, the file appears if the tool
created it; when the invocation did not raise, the source checks
`os.path.exists` and returns success; otherwise it falls through to the
next tool.  Returns (success, file exists on disk afterwards). -/
def takeScreenshotGo : Bool → List ToolRun → Bool × Bool
  | fileOnDisk, [] => (false, fileOnDisk)
  | fileOnDisk, t :: ts =>
    let f := fileOnDisk || t.createsFile
    if t.raises = false ∧ f = true then (true, f)
    else takeScreenshotGo f ts

/-- `take_screenshot`: the stale output file is removed first (lines
292-294), so the loop starts with no file on disk. -/
def take_screenshot (tools : List ToolRun) : Bool × Bool :=
  takeScreenshotGo false tools

/-- The user interaction observed by one capture session: an escape
before the first click, an escape after the first click, or two
completed clicks. -/
inductive UserAction where
  | cancelAtFirstClick
  | cancelAtSecondClick (point1 : ℤ × ℤ)
  | completeClicks (point1 point2 : ℤ × ℤ)
deriving DecidableEq

/-- Environment of one capture session: the screenshot tool behaviours,
the byte size of the captured artifact when one exists, whether PIL can
open and crop it, and what the user does on the click surface. -/
structure SessionEnv where
  tools : List ToolRun
  fileSize : ℕ
  imageLoadOk : Bool
  user : UserAction
deriving DecidableEq

/-- Embedding of the exit paths of a `ScreenshotMeasure` session
(`__init__` lines 190-214 plus the event handlers `cancel`, `on_click`
and `finish`).  Result: the pair delivered to the callback, and whether
the temporary screenshot file still exists on disk at session end.
Path by path, following the source order: `take_screenshot` failure
returns early with whatever the loop left on disk; the
`os.path.exists` re-check returns early with no file; a file smaller
than 1000 bytes returns early WITHOUT removing the file; a failing
`load_image` returns early WITHOUT removing the file; `cancel` and
`finish` both call `cleanup`, which removes the file. -/
def runSession (env : SessionEnv) : (Option (ℤ × ℤ) × Option (ℤ × ℤ)) × Bool :=
  let s := take_screenshot env.tools
  if s.1 = false then ((none, none), s.2)
  else if s.2 = false then ((none, none), false)
  else if env.fileSize < 1000 then ((none, none), true)
  else if env.imageLoadOk = false then ((none, none), true)
  else
    match env.user with
    | .cancelAtFirstClick => ((none, none), false)
    | .cancelAtSecondClick _ => ((none, none), false)
    | .completeClicks p1 p2 => ((some p1, some p2), false)

/-- The source conversion refines the table of the specification: away
from the zero divisors it returns exactly the record built from the
table formulas. -/
theorem convert_eq_spec (d dpi bfs w h : ℚ) (hdpi : dpi ≠ 0) (hbfs : bfs ≠ 0)
    (hw : w ≠ 0) (hh : h ≠ 0) :
    convert d dpi bfs w h = some (convertSpec d dpi bfs w h) := by
  unfold convert convertSpec
  rw [if_neg]
  push_neg
  exact ⟨hdpi, hbfs, hw, hh⟩

/-- Claim C1: for every non-negative distance and positive dpi, base
font size and viewport dimensions, the conversion returns exactly the
unit values of the table of the spec, and at distance 100, dpi 96,
font 16, viewport 1920 by 1080 the displayed (rounded) values are
px 100.00, pt 75.00, in 1.0417, cm 2.6458, em 6.2500, vw 5.2083 and
vmin 9.2593. -/
theorem C1_convert_matches_spec_table (d dpi bfs w h : ℚ)
    (hd : 0 ≤ d) (hdpi : 0 < dpi) (hbfs : 0 < bfs) (hw : 0 < w) (hh : 0 < h) :
    convert d dpi bfs w h = some (convertSpec d dpi bfs w h) ∧
    roundTo 2 (convertSpec 100 96 16 1920 1080).px = 100 ∧
    roundTo 2 (convertSpec 100 96 16 1920 1080).pt = 75 ∧
    roundTo 4 (convertSpec 100 96 16 1920 1080).inch = 10417 / 10000 ∧
    roundTo 4 (convertSpec 100 96 16 1920 1080).cm = 26458 / 10000 ∧
    roundTo 4 (convertSpec 100 96 16 1920 1080).em = 62500 / 10000 ∧
    roundTo 4 (convertSpec 100 96 16 1920 1080).vw = 52083 / 10000 ∧
    roundTo 4 (convertSpec 100 96 16 1920 1080).vmin = 92593 / 10000 := by
  refine ⟨convert_eq_spec d dpi bfs w h (ne_of_gt hdpi) (ne_of_gt hbfs)
    (ne_of_gt hw) (ne_of_gt hh), ?_, ?_, ?_, ?_, ?_, ?_, ?_⟩ <;>
    norm_num [convertSpec, roundTo, round_eq, min_def, max_def]

/-- Witness for C1 at the concrete input of the spec example. -/
theorem C1_convert_matches_spec_table_witness :
    convert 100 96 16 1920 1080 = some (convertSpec 100 96 16 1920 1080) :=
  (C1_convert_matches_spec_table 100 96 16 1920 1080 (by norm_num) (by norm_num)
    (by norm_num) (by norm_num) (by norm_num)).1

/-- Claim C2 counterexample: at dpi = -96 (negative, hence "zero or
negative") the conversion does not fail at all — it feeds the negative
dpi into the formulas and returns a value record whose inch entry is
negative.  There is no InvalidSettings condition in the code. -/
theorem C2_counterexample :
    convert 100 (-96) 16 1920 1080 = some (convertSpec 100 (-96) 16 1920 1080) ∧
    (convertSpec 100 (-96) 16 1920 1080).inch < 0 :=
  ⟨convert_eq_spec 100 (-96) 16 1920 1080 (by norm_num) (by norm_num)
      (by norm_num) (by norm_num),
   by norm_num [convertSpec]⟩

/-- Claim C2 amended: the conversion fails (Python ZeroDivisionError,
so an inf is never produced) exactly when one of dpi, base font size,
viewport width, viewport height is zero; strictly negative settings are
not rejected and are fed into the pure formulas, producing a value
record. -/
theorem C2_amended_zero_divisor_failure (d dpi bfs w h : ℚ) :
    (convert d dpi bfs w h = none ↔ (dpi = 0 ∨ bfs = 0 ∨ w = 0 ∨ h = 0)) ∧
    (dpi < 0 → 0 < bfs → 0 < w → 0 < h →
      convert d dpi bfs w h = some (convertSpec d dpi bfs w h)) := by
  constructor
  · unfold convert
    split <;> simp_all
  · intro h1 h2 h3 h4
    exact convert_eq_spec d dpi bfs w h (ne_of_lt h1) (ne_of_gt h2)
      (ne_of_gt h3) (ne_of_gt h4)

/-- Witness for the amended C2 at dpi = -1. -/
theorem C2_amended_zero_divisor_failure_witness :
    convert 100 (-1) 16 1920 1080 = some (convertSpec 100 (-1) 16 1920 1080) :=
  (C2_amended_zero_divisor_failure 100 (-1) 16 1920 1080).2 (by norm_num)
    (by norm_num) (by norm_num) (by norm_num)

/-- Claim C4 counterexample: at distance 100, viewport 1920 by 1080
(width different from height) the vmin output 250/27 is strictly larger
than the vmax output 125/24, because the source divides by the smaller
dimension for vmin — the direction claimed by the spec is inverted. -/
theorem C4_counterexample :
    convert 100 96 16 1920 1080 = some (convertSpec 100 96 16 1920 1080) ∧
    ¬ (convertSpec 100 96 16 1920 1080).vmin ≤
        (convertSpec 100 96 16 1920 1080).vmax :=
  ⟨convert_eq_spec 100 96 16 1920 1080 (by norm_num) (by norm_num) (by norm_num)
      (by norm_num),
   by norm_num [convertSpec, min_def, max_def]⟩

/-- Claim C4 amended: for positive distance and viewport dimensions the
outputs satisfy vmax less-or-equal vmin (the reverse of the claimed
direction), with equality when the viewport is square. -/
theorem C4_amended_vmax_le_vmin (d dpi bfs w h : ℚ) (m : Measurements)
    (hd : 0 < d) (hw : 0 < w) (hh : 0 < h)
    (hm : convert d dpi bfs w h = some m) :
    m.vmax ≤ m.vmin ∧ (w = h → m.vmin = m.vmax) := by
  unfold convert at hm
  split at hm
  · exact absurd hm (by simp)
  · injection hm with hm
    subst hm
    constructor
    · show d / (max w h) * 100 ≤ d / (min w h) * 100
      have h1 : 0 < min w h := lt_min hw hh
      have h2 : min w h ≤ max w h := min_le_max
      exact mul_le_mul_of_nonneg_right
        (div_le_div_of_nonneg_left (le_of_lt hd) h1 h2) (by norm_num)
    · intro hwh
      subst hwh
      show d / (min w w) * 100 = d / (max w w) * 100
      rw [min_self, max_self]

/-- Witness for the amended C4 at the concrete 1920 by 1080 input. -/
theorem C4_amended_vmax_le_vmin_witness :
    (convertSpec 100 96 16 1920 1080).vmax ≤ (convertSpec 100 96 16 1920 1080).vmin ∧
    ((1920 : ℚ) = 1080 →
      (convertSpec 100 96 16 1920 1080).vmin = (convertSpec 100 96 16 1920 1080).vmax) :=
  C4_amended_vmax_le_vmin 100 96 16 1920 1080 (convertSpec 100 96 16 1920 1080)
    (by norm_num) (by norm_num) (by norm_num)
    (convert_eq_spec 100 96 16 1920 1080 (by norm_num) (by norm_num) (by norm_num)
      (by norm_num))

/-- Claim C5: the conversion is deterministic (equal inputs give equal
outputs) and, for positive settings, every one of the unit outputs is
monotonically non-decreasing in the pixel distance. -/
theorem C5_deterministic_and_monotone (d₁ d₂ dpi bfs w h : ℚ) (m₁ m₂ : Measurements)
    (hdpi : 0 < dpi) (hbfs : 0 < bfs) (hw : 0 < w) (hh : 0 < h)
    (hd₁ : 0 < d₁) (hle : d₁ ≤ d₂)
    (h₁ : convert d₁ dpi bfs w h = some m₁)
    (h₂ : convert d₂ dpi bfs w h = some m₂) :
    (∀ d' dpi' bfs' w' h', d' = d₁ → dpi' = dpi → bfs' = bfs → w' = w → h' = h →
      convert d' dpi' bfs' w' h' = convert d₁ dpi bfs w h) ∧
    (m₁.px ≤ m₂.px ∧ m₁.pt ≤ m₂.pt ∧ m₁.pc ≤ m₂.pc ∧ m₁.inch ≤ m₂.inch ∧
     m₁.cm ≤ m₂.cm ∧ m₁.mm ≤ m₂.mm ∧ m₁.Q ≤ m₂.Q ∧ m₁.em ≤ m₂.em ∧
     m₁.rem ≤ m₂.rem ∧ m₁.ch ≤ m₂.ch ∧ m₁.ex ≤ m₂.ex ∧ m₁.vw ≤ m₂.vw ∧
     m₁.vh ≤ m₂.vh ∧ m₁.pct ≤ m₂.pct ∧ m₁.vmin ≤ m₂.vmin ∧ m₁.vmax ≤ m₂.vmax) := by
  have hmin : 0 < min w h := lt_min hw hh
  have hmax : 0 < max w h := lt_of_lt_of_le hw (le_max_left w h)
  have hbfs2 : 0 < bfs * 0.5 := by positivity
  rw [convert_eq_spec d₁ dpi bfs w h (ne_of_gt hdpi) (ne_of_gt hbfs) (ne_of_gt hw)
    (ne_of_gt hh)] at h₁
  rw [convert_eq_spec d₂ dpi bfs w h (ne_of_gt hdpi) (ne_of_gt hbfs) (ne_of_gt hw)
    (ne_of_gt hh)] at h₂
  injection h₁ with h₁
  injection h₂ with h₂
  subst h₁
  subst h₂
  constructor
  · intro d' dpi' bfs' w' h' e1 e2 e3 e4 e5
    subst e1; subst e2; subst e3; subst e4; subst e5
    rfl
  · dsimp only [convertSpec]
    refine ⟨hle, ?_, ?_, ?_, ?_, ?_, ?_, ?_, ?_, ?_, ?_, ?_, ?_, ?_, ?_, ?_⟩ <;>
      gcongr

/-- Witness for C5 at distances 100 and 200. -/
theorem C5_deterministic_and_monotone_witness :
    (∀ d' dpi' bfs' w' h', d' = (100 : ℚ) → dpi' = (96 : ℚ) → bfs' = (16 : ℚ) →
      w' = (1920 : ℚ) → h' = (1080 : ℚ) →
      convert d' dpi' bfs' w' h' = convert 100 96 16 1920 1080) ∧
    ((convertSpec 100 96 16 1920 1080).px ≤ (convertSpec 200 96 16 1920 1080).px ∧
     (convertSpec 100 96 16 1920 1080).pt ≤ (convertSpec 200 96 16 1920 1080).pt ∧
     (convertSpec 100 96 16 1920 1080).pc ≤ (convertSpec 200 96 16 1920 1080).pc ∧
     (convertSpec 100 96 16 1920 1080).inch ≤ (convertSpec 200 96 16 1920 1080).inch ∧
     (convertSpec 100 96 16 1920 1080).cm ≤ (convertSpec 200 96 16 1920 1080).cm ∧
     (convertSpec 100 96 16 1920 1080).mm ≤ (convertSpec 200 96 16 1920 1080).mm ∧
     (convertSpec 100 96 16 1920 1080).Q ≤ (convertSpec 200 96 16 1920 1080).Q ∧
     (convertSpec 100 96 16 1920 1080).em ≤ (convertSpec 200 96 16 1920 1080).em ∧
     (convertSpec 100 96 16 1920 1080).rem ≤ (convertSpec 200 96 16 1920 1080).rem ∧
     (convertSpec 100 96 16 1920 1080).ch ≤ (convertSpec 200 96 16 1920 1080).ch ∧
     (convertSpec 100 96 16 1920 1080).ex ≤ (convertSpec 200 96 16 1920 1080).ex ∧
     (convertSpec 100 96 16 1920 1080).vw ≤ (convertSpec 200 96 16 1920 1080).vw ∧
     (convertSpec 100 96 16 1920 1080).vh ≤ (convertSpec 200 96 16 1920 1080).vh ∧
     (convertSpec 100 96 16 1920 1080).pct ≤ (convertSpec 200 96 16 1920 1080).pct ∧
     (convertSpec 100 96 16 1920 1080).vmin ≤ (convertSpec 200 96 16 1920 1080).vmin ∧
     (convertSpec 100 96 16 1920 1080).vmax ≤ (convertSpec 200 96 16 1920 1080).vmax) :=
  C5_deterministic_and_monotone 100 200 96 16 1920 1080
    (convertSpec 100 96 16 1920 1080) (convertSpec 200 96 16 1920 1080)
    (by norm_num) (by norm_num) (by norm_num) (by norm_num) (by norm_num) (by norm_num)
    (convert_eq_spec 100 96 16 1920 1080 (by norm_num) (by norm_num) (by norm_num)
      (by norm_num))
    (convert_eq_spec 200 96 16 1920 1080 (by norm_num) (by norm_num) (by norm_num)
      (by norm_num))

/-- Claim C6: a parse failure of either settings field (modelled as
`none`) makes the caller substitute the defaults dpi 96, font size 16,
and the measurement is still computed (the conversion returns a value
record rather than aborting). -/
theorem C6_parse_failure_defaults (dpiInput fontInput : Option ℚ)
    (d w h : ℚ) (hw : 0 < w) (hh : 0 < h)
    (hfail : dpiInput = none ∨ fontInput = none) :
    resolveSettings dpiInput fontInput = (96, 16) ∧
    calcMeasurements dpiInput fontInput d w h = some (convertSpec d 96 16 w h) := by
  have hrs : resolveSettings dpiInput fontInput = (96, 16) := by
    rcases hfail with h1 | h1
    · subst h1; cases fontInput <;> rfl
    · subst h1; cases dpiInput <;> rfl
  refine ⟨hrs, ?_⟩
  simp only [calcMeasurements, hrs]
  exact convert_eq_spec d 96 16 w h (by norm_num) (by norm_num) (ne_of_gt hw)
    (ne_of_gt hh)

/-- Witness for C6 with an unparseable dpi field and a parseable font
field. -/
theorem C6_parse_failure_defaults_witness :
    resolveSettings none (some 12) = (96, 16) ∧
    calcMeasurements none (some 12) 50 1920 1080 = some (convertSpec 50 96 16 1920 1080) :=
  C6_parse_failure_defaults none (some 12) 50 1920 1080 (by norm_num) (by norm_num)
    (Or.inl rfl)

/-- Sorting a nonempty list gives a nonempty list. -/
theorem sortMons_ne_nil {l : List Monitor} (h : l ≠ []) : sortMons l ≠ [] := by
  intro hc
  apply h
  have hp := List.perm_insertionSort monLe l
  rw [sortMons] at hc
  rw [hc] at hp
  exact hp.symm.eq_nil

/-- Claim C7: whatever each detection source reports, the returned
monitor list is sorted by (x, y) ascending. -/
theorem C7_monitor_list_sorted (xrandrMons wlrMons : Option (List Monitor))
    (tkScreen : Option (ℤ × ℤ)) :
    List.Sorted monLe (get_monitors xrandrMons wlrMons tkScreen) := by
  simp only [get_monitors]
  split
  · exact List.sorted_insertionSort monLe _
  · split
    · exact List.sorted_insertionSort monLe _
    · split <;> exact List.sorted_singleton _

/-- Claim C8: detection always returns a nonempty list, and when every
source fails to yield a monitor it returns exactly the one synthetic
Default record at 1920 by 1080. -/
theorem C8_detection_fallback (xrandrMons wlrMons : Option (List Monitor))
    (tkScreen : Option (ℤ × ℤ)) :
    get_monitors xrandrMons wlrMons tkScreen ≠ [] ∧
    ((xrandrMons = none ∨ xrandrMons = some []) →
     (wlrMons = none ∨ wlrMons = some []) →
     tkScreen = none →
     get_monitors xrandrMons wlrMons tkScreen =
       [{ name := "Default", width := 1920, height := 1080, x := 0, y := 0 }]) := by
  constructor
  · simp only [get_monitors]
    split
    · exact sortMons_ne_nil (by assumption)
    · split
      · exact sortMons_ne_nil (by assumption)
      · split <;> simp
  · intro h1 h2 h3
    subst h3
    rcases h1 with h1 | h1 <;> rcases h2 with h2 | h2 <;> subst h1 <;> subst h2 <;> rfl

/-- Witness for C8: all three sources fail. -/
theorem C8_detection_fallback_witness :
    get_monitors none none none ≠ [] ∧
    get_monitors none none none =
      [{ name := "Default", width := 1920, height := 1080, x := 0, y := 0 }] :=
  ⟨(C8_detection_fallback none none none).1,
   (C8_detection_fallback none none none).2 (Or.inl rfl) (Or.inl rfl) rfl⟩

/-- Claim C9: for a monitor rectangle with non-negative width and
height and an image with non-negative dimensions, the crop rectangle of
`load_image` is clamped into [0, width] by [0, height] and satisfies
left at most right and top at most bottom, so the PIL crop region is
valid. -/
theorem C9_crop_region_valid (mon : Monitor) (full_w full_h : ℤ)
    (hw : 0 ≤ mon.width) (hh : 0 ≤ mon.height)
    (hfw : 0 ≤ full_w) (hfh : 0 ≤ full_h) :
    0 ≤ (cropRegion mon full_w full_h).1 ∧
    (cropRegion mon full_w full_h).1 ≤ full_w ∧
    0 ≤ (cropRegion mon full_w full_h).2.1 ∧
    (cropRegion mon full_w full_h).2.1 ≤ full_h ∧
    0 ≤ (cropRegion mon full_w full_h).2.2.1 ∧
    (cropRegion mon full_w full_h).2.2.1 ≤ full_w ∧
    0 ≤ (cropRegion mon full_w full_h).2.2.2 ∧
    (cropRegion mon full_w full_h).2.2.2 ≤ full_h ∧
    (cropRegion mon full_w full_h).1 ≤ (cropRegion mon full_w full_h).2.2.1 ∧
    (cropRegion mon full_w full_h).2.1 ≤ (cropRegion mon full_w full_h).2.2.2 := by
  simp only [cropRegion, clampI]
  omega

/-- Witness for C9: a 1920 by 1080 monitor at (1000, 500) cropped
against a 1280 by 720 image, a rectangle far beyond the image bounds. -/
theorem C9_crop_region_valid_witness :
    0 ≤ (cropRegion { name := "M", width := 1920, height := 1080, x := 1000, y := 500 } 1280 720).1 ∧
    (cropRegion { name := "M", width := 1920, height := 1080, x := 1000, y := 500 } 1280 720).1 ≤ 1280 ∧
    0 ≤ (cropRegion { name := "M", width := 1920, height := 1080, x := 1000, y := 500 } 1280 720).2.1 ∧
    (cropRegion { name := "M", width := 1920, height := 1080, x := 1000, y := 500 } 1280 720).2.1 ≤ 720 ∧
    0 ≤ (cropRegion { name := "M", width := 1920, height := 1080, x := 1000, y := 500 } 1280 720).2.2.1 ∧
    (cropRegion { name := "M", width := 1920, height := 1080, x := 1000, y := 500 } 1280 720).2.2.1 ≤ 1280 ∧
    0 ≤ (cropRegion { name := "M", width := 1920, height := 1080, x := 1000, y := 500 } 1280 720).2.2.2 ∧
    (cropRegion { name := "M", width := 1920, height := 1080, x := 1000, y := 500 } 1280 720).2.2.2 ≤ 720 ∧
    (cropRegion { name := "M", width := 1920, height := 1080, x := 1000, y := 500 } 1280 720).1 ≤
      (cropRegion { name := "M", width := 1920, height := 1080, x := 1000, y := 500 } 1280 720).2.2.1 ∧
    (cropRegion { name := "M", width := 1920, height := 1080, x := 1000, y := 500 } 1280 720).2.1 ≤
      (cropRegion { name := "M", width := 1920, height := 1080, x := 1000, y := 500 } 1280 720).2.2.2 :=
  C9_crop_region_valid { name := "M", width := 1920, height := 1080, x := 1000, y := 500 }
    1280 720 (by norm_num) (by norm_num) (by norm_num) (by norm_num)

/-- When the tool loop reports success, the output file is on disk
(the success branch is taken right after the existence check). -/
theorem takeScreenshotGo_success_file (l : List ToolRun) : ∀ f : Bool,
    (takeScreenshotGo f l).1 = true → (takeScreenshotGo f l).2 = true := by
  induction l with
  | nil => intro f h; simp [takeScreenshotGo] at h
  | cons t ts ih =>
    intro f h
    by_cases hc : t.raises = false ∧ (f || t.createsFile) = true
    · simp only [takeScreenshotGo, if_pos hc] at h ⊢
      exact hc.2
    · simp only [takeScreenshotGo, if_neg hc] at h ⊢
      exact ih _ h

/-- The tool loop reads nothing of a tool invocation but whether it
raised and whether the output file is present: its result is determined
by those two observables alone. -/
theorem takeScreenshotGo_obs (l₁ : List ToolRun) : ∀ (l₂ : List ToolRun) (f : Bool),
    l₁.map (fun t => (t.raises, t.createsFile)) =
      l₂.map (fun t => (t.raises, t.createsFile)) →
    takeScreenshotGo f l₁ = takeScreenshotGo f l₂ := by
  induction l₁ with
  | nil =>
    intro l₂ f h
    cases l₂ with
    | nil => rfl
    | cons u us => simp at h
  | cons t ts ih =>
    intro l₂ f h
    cases l₂ with
    | nil => simp at h
    | cons u us =>
      simp only [List.map_cons, List.cons.injEq, Prod.mk.injEq] at h
      obtain ⟨⟨hr, hcf⟩, hrest⟩ := h
      simp only [takeScreenshotGo, hr, hcf]
      by_cases hc : u.raises = false ∧ (f || u.createsFile) = true
      · rw [if_pos hc, if_pos hc]
      · rw [if_neg hc, if_neg hc]
        exact ih us _ hrest

/-- The tool loop succeeds exactly when some invocation does not raise
and the output file exists on disk at its check point, that is, some
tool up to and including that one created the file. -/
theorem takeScreenshotGo_success_iff (l : List ToolRun) : ∀ f : Bool,
    ((takeScreenshotGo f l).1 = true ↔
      ∃ i, ∃ hi : i < l.length, (l.get ⟨i, hi⟩).raises = false ∧
        (f || (l.take (i + 1)).any (fun t => t.createsFile)) = true) := by
  induction l with
  | nil =>
    intro f
    simp [takeScreenshotGo]
  | cons t ts ih =>
    intro f
    by_cases hc : t.raises = false ∧ (f || t.createsFile) = true
    · simp only [takeScreenshotGo, if_pos hc]
      constructor
      · intro _
        exact ⟨0, by simp, by simpa using hc.1, by simpa using hc.2⟩
      · intro _
        trivial
    · simp only [takeScreenshotGo, if_neg hc]
      rw [ih]
      constructor
      · rintro ⟨i, hi, h1, h2⟩
        refine ⟨i + 1, by simpa using hi, by simpa using h1, ?_⟩
        simpa [List.take_succ_cons, Bool.or_assoc] using h2
      · rintro ⟨i, hi, h1, h2⟩
        cases i with
        | zero =>
          exact absurd ⟨by simpa using h1, by simpa using h2⟩ hc
        | succ j =>
          refine ⟨j, by simpa using hi, by simpa using h1, ?_⟩
          simpa [List.take_succ_cons, Bool.or_assoc] using h2

/-- Claim C10: the screenshot step judges a candidate tool successful
exactly when the output file exists at the post-invocation check — the
process exit code is never inspected (two tool lists agreeing on the
raised/file-present observables but with arbitrary exit codes produce
identical results), and success holds precisely when some non-raising
invocation finds the file on disk. -/
theorem C10_success_is_file_existence (tools tools2 : List ToolRun)
    (hobs : tools.map (fun t => (t.raises, t.createsFile)) =
      tools2.map (fun t => (t.raises, t.createsFile))) :
    take_screenshot tools = take_screenshot tools2 ∧
    ((take_screenshot tools).1 = true ↔
      ∃ i, ∃ hi : i < tools.length, (tools.get ⟨i, hi⟩).raises = false ∧
        ((tools.take (i + 1)).any (fun t => t.createsFile)) = true) := by
  constructor
  · exact takeScreenshotGo_obs tools tools2 false hobs
  · rw [take_screenshot, takeScreenshotGo_success_iff]
    simp

/-- Witness for C10: a single tool that exits with status 1 but leaves
the file is treated exactly as one exiting with status 0, and the run
succeeds. -/
theorem C10_success_is_file_existence_witness :
    take_screenshot [{ raises := false, exitCode := 1, createsFile := true }] =
      take_screenshot [{ raises := false, exitCode := 0, createsFile := true }] ∧
    ((take_screenshot [{ raises := false, exitCode := 1, createsFile := true }]).1 = true ↔
      ∃ i, ∃ hi : i < [{ raises := false, exitCode := 1, createsFile := true }].length,
        (([{ raises := false, exitCode := 1, createsFile := true }] : List ToolRun).get
          ⟨i, hi⟩).raises = false ∧
        (([{ raises := false, exitCode := 1, createsFile := true }] : List ToolRun).take
          (i + 1)).any (fun t => t.createsFile) = true) :=
  C10_success_is_file_existence
    [{ raises := false, exitCode := 1, createsFile := true }]
    [{ raises := false, exitCode := 0, createsFile := true }] rfl

/-- Claim C3 counterexample: a session whose tool captures a 500-byte
artifact (below the 1000-byte threshold) exits with (none, none) while
the temporary file is still on disk — the below-threshold exit path
performs no cleanup. -/
theorem C3_counterexample :
    runSession { tools := [{ raises := false, exitCode := 0, createsFile := true }],
                 fileSize := 500, imageLoadOk := true,
                 user := UserAction.completeClicks (0, 0) (3, 4) } =
      ((none, none), true) := rfl

/-- Claim C3 amended: once the capture succeeds with a plausible,
loadable artifact, every exit of the click phase (cancel at either
point, or two completed clicks) removes the temporary file; in
particular a cancel during the first-click wait delivers (none, none)
with the artifact gone.  The earlier failure exits (artifact below the
byte threshold, image load failure) leave the file on disk. -/
theorem C3_amended_cleanup (env : SessionEnv)
    (hshot : (take_screenshot env.tools).1 = true)
    (hsize : 1000 ≤ env.fileSize)
    (hload : env.imageLoadOk = true) :
    (runSession env).2 = false ∧
    (env.user = UserAction.cancelAtFirstClick →
      runSession env = ((none, none), false)) := by
  have hfile : (take_screenshot env.tools).2 = true :=
    takeScreenshotGo_success_file env.tools false hshot
  simp only [runSession]
  rw [if_neg (by simp [hshot]), if_neg (by simp [hfile]), if_neg (by omega),
    if_neg (by simp [hload])]
  cases henv : env.user <;> simp

/-- Witness for the amended C3: a good capture cancelled at the first
click. -/
theorem C3_amended_cleanup_witness :
    (runSession { tools := [{ raises := false, exitCode := 0, createsFile := true }],
                  fileSize := 5000, imageLoadOk := true,
                  user := UserAction.cancelAtFirstClick }).2 = false ∧
    (({ tools := [{ raises := false, exitCode := 0, createsFile := true }],
        fileSize := 5000, imageLoadOk := true,
        user := UserAction.cancelAtFirstClick } : SessionEnv).user =
          UserAction.cancelAtFirstClick →
      runSession { tools := [{ raises := false, exitCode := 0, createsFile := true }],
                   fileSize := 5000, imageLoadOk := true,
                   user := UserAction.cancelAtFirstClick } = ((none, none), false)) :=
  C3_amended_cleanup
    { tools := [{ raises := false, exitCode := 0, createsFile := true }],
      fileSize := 5000, imageLoadOk := true,
      user := UserAction.cancelAtFirstClick } rfl (by norm_num) rfl

end PixelMeasure
